import Mathlib

/-!
Shallow embedding of `butterfree/transform/transformations/custom_transform.py`
(the `CustomTransform` transformation component) and of the parent-binding
behaviour of its base class `TransformComponent`, together with theorems
settling the specification claims about it.

Python conventions used by the embedding:
  * a raised exception is an `Except.error` carrying a `PyError`;
  * a Python attribute that may hold `None` (or not exist yet) is an `Option`;
  * attribute assignment is functional record update with explicit state
    passing, and `transform` threads the component state through, returning
    the (unchanged) component alongside the produced dataframe;
  * the transformer attribute may hold any Python object, callable or not
    (`PyObject`); calling a non-callable raises a `TypeError`.
-/

/-- A Python value usable as a keyword-argument value or a dataframe cell. -/
inductive Value where
  | vStr (s : String)
  | vInt (n : Int)
  | vNone
  deriving DecidableEq

/-- Errors of the embedded program.  `valueError`, `typeError` and
`attributeError` mirror the Python exception classes the code can raise;
`bindingError` is the failure the spec assigns to using an unbound component;
`transformExecutionError` is the wrapped error class the spec postulates for
transformer failures (the source never constructs it); `userError` stands for
an arbitrary exception raised inside a user-supplied transformer. -/
inductive PyError where
  | valueError (msg : String)
  | typeError (msg : String)
  | attributeError (msg : String)
  | bindingError (msg : String)
  | transformExecutionError (feature : String) (msg : String)
  | userError (msg : String)
  deriving DecidableEq

/-- Whether an error is the spec-postulated wrapped transformer failure. -/
def PyError.isTransformExecutionError : PyError → Bool
  | .transformExecutionError _ _ => true
  | _ => false

/-- The external tabular dataset handle (pyspark `DataFrame`), reduced to the
column/row structure the claims speak about. -/
structure DataFrame where
  columns : List String
  rows : List (List Value)
  deriving DecidableEq

/-- Modelled from the spec: the external `TabularDataset` supports column
addition by name (`withColumn` in the source docstring example): if the
column already exists its cells are replaced, otherwise the column is
appended, with the new cell computed from the row. -/
def DataFrame.withColumn (df : DataFrame) (colName : String)
    (g : List Value → Value) : DataFrame :=
  if colName ∈ df.columns then
    { columns := df.columns,
      rows := df.rows.map (fun r =>
        (df.columns.zip r).map (fun cv => if cv.1 = colName then g r else cv.2)) }
  else
    { columns := df.columns ++ [colName],
      rows := df.rows.map (fun r => r ++ [g r]) }

/-- Modelled from the spec: `FeatureDescriptor` (the "parent" feature), an
external read-only object exposing the declared output `name`. -/
structure FeatureDescriptor where
  name : String
  deriving DecidableEq

/-- The signature contract of a transformer callable:
`(dataset, parent_descriptor, **extra_arguments) -> dataset`, possibly
raising. -/
def TransformerFn :=
  DataFrame → FeatureDescriptor → List (String × Value) → Except PyError DataFrame

/-- A Python object stored in the `transformer` attribute: either an actual
callable, or any other (non-callable) object, identified by its repr text. -/
inductive PyObject where
  | callable (f : TransformerFn)
  | notCallable (reprText : String)

/-- Python call semantics on a stored object: a callable is applied; calling
anything else raises `TypeError`. -/
def PyObject.call (obj : PyObject) (df : DataFrame) (p : FeatureDescriptor)
    (kwargs : List (String × Value)) : Except PyError DataFrame :=
  match obj with
  | .callable f => f df p kwargs
  | .notCallable r => .error (.typeError ("object is not callable: " ++ r))

/-- The state of a `CustomTransform` instance.  `_parent` comes from the
`TransformComponent` base class (modelled from the spec: unbound components
hold no parent); `_transformer` is the private attribute behind the
`transformer` property (absent/None before the setter first succeeds);
`transformer__kwargs` is the public extra-arguments attribute. -/
structure CustomTransform where
  _parent : Option FeatureDescriptor
  _transformer : Option PyObject
  transformer__kwargs : List (String × Value)

/-- The `transformer` property setter:
`if method is None: raise ValueError(...)` then stores the method. -/
def transformer_setter (ct : CustomTransform) (method : Option PyObject) :
    Except PyError CustomTransform :=
  match method with
  | Option.none => .error (.valueError "A method must be provided to CustomTransform")
  | some m => .ok { ct with _transformer := some m }

/-- The `transformer` property getter: returns `self._transformer`. -/
def CustomTransform.transformer (ct : CustomTransform) : Option PyObject :=
  ct._transformer

/-- Python attribute assignment `self.transformer__kwargs = kwargs` on the
public extra-arguments attribute (also usable after construction, since the
attribute is exposed). -/
def set_transformer__kwargs (ct : CustomTransform)
    (kwargs : List (String × Value)) : CustomTransform :=
  { ct with transformer__kwargs := kwargs }

/-- `CustomTransform.__init__(transformer, **kwargs)`:
`super().__init__()` leaves the component unbound (base class modelled from
the spec), then `self.transformer = transformer` runs the validating setter
(raising before `kwargs` is ever stored when the callable is absent), then
`self.transformer__kwargs = kwargs`. -/
def custom_transform_init (transformer : Option PyObject)
    (kwargs : List (String × Value)) : Except PyError CustomTransform :=
  let ct0 : CustomTransform :=
    { _parent := Option.none, _transformer := Option.none, transformer__kwargs := [] }
  match transformer_setter ct0 transformer with
  | .error e => .error e
  | .ok ct1 => .ok (set_transformer__kwargs ct1 kwargs)

/-- Modelled from the spec: the binding operation of the `TransformComponent`
base class (not under src/) — the owning feature attaches itself as parent. -/
def CustomTransform.bind (ct : CustomTransform) (p : FeatureDescriptor) :
    CustomTransform :=
  { ct with _parent := some p }

/-- Modelled from the spec: the `parent` accessor of the `TransformComponent`
base class (not under src/).  Per the spec, using a component before a parent
is bound fails with a binding error (component not ready), never silently. -/
def CustomTransform.parent (ct : CustomTransform) :
    Except PyError FeatureDescriptor :=
  match ct._parent with
  | Option.none => .error (.bindingError "component not bound to a parent feature")
  | some p => .ok p

/-- `output_columns` property: `return [self._parent.name]`, reading the
parent bound at call time.  On an unbound component the raw `_parent`
attribute holds no descriptor and the `.name` access raises. -/
def CustomTransform.output_columns (ct : CustomTransform) :
    Except PyError (List String) :=
  match ct._parent with
  | Option.none => .error (.attributeError "NoneType object has no attribute name")
  | some p => .ok [p.name]

/-- `transform(dataframe)`: evaluates `self.transformer` (the getter), then
`self.parent`, then invokes the stored object with
`(dataframe, parent, **self.transformer__kwargs)` and returns its result
unchanged — no wrapping of its errors and no post-validation of its output.
The component state is threaded through unmodified (the method assigns only
the local `dataframe` variable, never `self`). -/
def CustomTransform.transform (ct : CustomTransform) (dataframe : DataFrame) :
    Except PyError (DataFrame × CustomTransform) :=
  match ct._transformer with
  | Option.none =>
      .error (.attributeError "CustomTransform object has no attribute _transformer")
  | some obj =>
    match ct._parent with
    | Option.none => .error (.bindingError "component not bound to a parent feature")
    | some p =>
      match obj.call dataframe p ct.transformer__kwargs with
      | .error e => .error e
      | .ok out => .ok (out, ct)

/-! Concrete sample objects used by witnesses and counterexamples. -/

/-- A sample parent feature descriptor. -/
def parentFeature : FeatureDescriptor := { name := "feature" }

/-- An empty input dataframe. -/
def dfEmpty : DataFrame := { columns := [], rows := [] }

/-- A one-column input dataframe. -/
def dfIdOnly : DataFrame := { columns := ["id"], rows := [[Value.vInt 1]] }

/-- A transformer that echoes its keyword arguments into the output table:
makes the replayed extra arguments observable in the result. -/
def kwEcho : TransformerFn := fun _ _ kwargs =>
  .ok { columns := kwargs.map Prod.fst, rows := [kwargs.map Prod.snd] }

/-- A bound `CustomTransform` holding `kwEcho` with one extra argument. -/
def ctEcho : CustomTransform :=
  { _parent := some parentFeature,
    _transformer := some (PyObject.callable kwEcho),
    transformer__kwargs := [("k", Value.vInt 1)] }

/-- A transformer that discards its input and returns an empty dataframe. -/
def dropAll : TransformerFn := fun _ _ _ => .ok { columns := [], rows := [] }

/-- A bound `CustomTransform` holding `dropAll`. -/
def ctDrop : CustomTransform :=
  { _parent := some parentFeature,
    _transformer := some (PyObject.callable dropAll),
    transformer__kwargs := [] }

/-- A transformer that always raises, standing for an internal failure of the
user-supplied callable. -/
def alwaysRaises : TransformerFn := fun _ _ _ =>
  .error (.userError "division by zero")

/-- A bound `CustomTransform` holding `alwaysRaises`. -/
def ctRaises : CustomTransform :=
  { _parent := some parentFeature,
    _transformer := some (PyObject.callable alwaysRaises),
    transformer__kwargs := [] }

/-- The constant cell producer used by the `withColumn` sample transformer. -/
def gConst : List Value → Value := fun _ => Value.vInt 7

/-- A bound `CustomTransform` whose transformer adds the parent-named column
to its input via `withColumn`. -/
def ctWith : CustomTransform :=
  { _parent := some parentFeature,
    _transformer := some (PyObject.callable
      (fun dd pp _ => .ok (dd.withColumn pp.name gConst))),
    transformer__kwargs := [] }

/-- An unbound `CustomTransform` (constructed, parent not yet attached). -/
def ctUnbound : CustomTransform :=
  { _parent := Option.none,
    _transformer := some (PyObject.callable kwEcho),
    transformer__kwargs := [] }

/-! Helper lemmas. -/

/-- `withColumn` keeps every column of the input dataframe. -/
theorem withColumn_columns_superset (df : DataFrame) (colName : String)
    (g : List Value → Value) (c : String) (hc : c ∈ df.columns) :
    c ∈ (df.withColumn colName g).columns := by
  unfold DataFrame.withColumn
  by_cases h : colName ∈ df.columns <;> simp [h, hc]

/-- `withColumn` makes the named column present in the output. -/
theorem withColumn_name_mem (df : DataFrame) (colName : String)
    (g : List Value → Value) :
    colName ∈ (df.withColumn colName g).columns := by
  unfold DataFrame.withColumn
  by_cases h : colName ∈ df.columns <;> simp [h]

/-- On a bound component holding a callable, `transform` is exactly one
application of the callable to `(dataframe, parent, kwargs)`. -/
theorem transform_bound_callable (ct : CustomTransform) (p : FeatureDescriptor)
    (f : TransformerFn) (d : DataFrame)
    (hp : ct._parent = some p)
    (ht : ct._transformer = some (PyObject.callable f)) :
    ct.transform d = (f d p ct.transformer__kwargs).map (fun out => (out, ct)) := by
  unfold CustomTransform.transform
  rw [ht, hp]
  simp only [PyObject.call]
  cases f d p ct.transformer__kwargs <;> rfl

/-! Claim theorems. -/

/-- Claim C1: for every bound `CustomTransform` holding a callable and every
input dataset, `transform` is exactly the single invocation of the stored
callable on `(dataset, parent, **extra_arguments)`, its result returned
unchanged — in particular no post-validation of the output columns is
performed (the equation holds whatever dataframe the callable returns). -/
theorem custom_transform_invokes_transformer_once_pass_through
    (ct : CustomTransform) (p : FeatureDescriptor) (f : TransformerFn)
    (d : DataFrame)
    (hp : ct._parent = some p)
    (ht : ct._transformer = some (PyObject.callable f)) :
    ct.transform d = (f d p ct.transformer__kwargs).map (fun out => (out, ct)) :=
  transform_bound_callable ct p f d hp ht

/-- Witness for C1 at a concrete component and dataset. -/
theorem custom_transform_invokes_transformer_once_pass_through_witness :
    ctEcho.transform dfEmpty
      = (kwEcho dfEmpty parentFeature ctEcho.transformer__kwargs).map
          (fun out => (out, ctEcho)) :=
  custom_transform_invokes_transformer_once_pass_through
    ctEcho parentFeature kwEcho dfEmpty rfl rfl

/-- Claim C2: for every bound `CustomTransform`, whatever the stored
transformer object, extra arguments and dataset content, `output_columns`
returns exactly the singleton of the currently bound parent's name (derived
at call time, not stored). -/
theorem output_columns_singleton_parent_name
    (ct : CustomTransform) (p : FeatureDescriptor)
    (hp : ct._parent = some p) :
    ct.output_columns = .ok [p.name] := by
  unfold CustomTransform.output_columns
  rw [hp]

/-- Witness for C2 at a concrete bound component. -/
theorem output_columns_singleton_parent_name_witness :
    ctEcho.output_columns = .ok ["feature"] :=
  output_columns_singleton_parent_name ctEcho parentFeature rfl

/-- Claim C3: constructing a `CustomTransform` with an absent (None)
transformer fails immediately inside `__init__`, for every combination of
extra keyword arguments, with the construction-time validation error raised
by the `transformer` setter — before anything is executed or stored. -/
theorem init_absent_transformer_always_fails
    (kwargs : List (String × Value)) :
    custom_transform_init Option.none kwargs
      = .error (.valueError "A method must be provided to CustomTransform") := rfl

/-- Claim C4 (base-class binding modelled from the spec): on a constructed
but not yet bound `CustomTransform`, `transform` always fails with the
binding error, for every stored transformer object and every dataset; the
result does not depend on the transformer, which is therefore never
invoked — never a silent no-op. -/
theorem transform_unbound_fails_binding_error
    (ct : CustomTransform) (obj : PyObject) (d : DataFrame)
    (ht : ct._transformer = some obj)
    (hp : ct._parent = Option.none) :
    ct.transform d = .error (.bindingError "component not bound to a parent feature") := by
  unfold CustomTransform.transform
  rw [ht, hp]

/-- Witness for C4 at a concrete unbound component. -/
theorem transform_unbound_fails_binding_error_witness :
    ctUnbound.transform dfEmpty
      = .error (.bindingError "component not bound to a parent feature") :=
  transform_unbound_fails_binding_error
    ctUnbound (PyObject.callable kwEcho) dfEmpty rfl rfl

/-- Counterexample to claim C5: a bound `CustomTransform` whose transformer
raises an internal error makes `transform` propagate that error bare and
unchanged — it is not a `TransformExecutionError` and carries no feature
name. -/
theorem transform_error_not_wrapped_counterexample :
    ctRaises.transform dfEmpty = .error (.userError "division by zero")
    ∧ (PyError.userError "division by zero").isTransformExecutionError = false :=
  ⟨rfl, rfl⟩

/-- Claim C5 as amended: any failure raised by the transformer during a
bound `transform` call propagates out of `transform` unchanged (the original
error object, with no wrapping and no added feature-name context). -/
theorem transform_propagates_transformer_error_bare
    (ct : CustomTransform) (p : FeatureDescriptor) (f : TransformerFn)
    (d : DataFrame) (e : PyError)
    (hp : ct._parent = some p)
    (ht : ct._transformer = some (PyObject.callable f))
    (he : f d p ct.transformer__kwargs = .error e) :
    ct.transform d = .error e := by
  rw [transform_bound_callable ct p f d hp ht, he]
  rfl

/-- Witness for the amended C5 at a concrete raising transformer. -/
theorem transform_propagates_transformer_error_bare_witness :
    ctRaises.transform dfEmpty = .error (.userError "division by zero") :=
  transform_propagates_transformer_error_bare
    ctRaises parentFeature alwaysRaises dfEmpty
    (.userError "division by zero") rfl rfl rfl

/-- Claim C6: `transform` never mutates the component state, so a successful
call can be replayed: a second call on the same input dataset, from the state
returned by the first call, yields exactly the same output (deterministic
idempotent replay of the construction-time extra arguments). -/
theorem transform_deterministic_replay
    (ct : CustomTransform) (d : DataFrame) (out : DataFrame)
    (ct1 : CustomTransform)
    (h : ct.transform d = .ok (out, ct1)) :
    ct1 = ct ∧ ct1.transform d = .ok (out, ct1) := by
  unfold CustomTransform.transform at h
  rcases htr : ct._transformer with _ | obj
  · simp [htr] at h
  simp only [htr] at h
  rcases hpar : ct._parent with _ | p
  · simp [hpar] at h
  simp only [hpar] at h
  rcases hcall : obj.call d p ct.transformer__kwargs with e | res
  · simp [hcall] at h
  simp only [hcall, Except.ok.injEq, Prod.mk.injEq] at h
  obtain ⟨hres, hctc⟩ := h
  subst hres
  refine ⟨hctc.symm, ?_⟩
  rw [← hctc]
  unfold CustomTransform.transform
  simp only [htr, hpar, hcall]

/-- Witness for C6 at a concrete component and dataset. -/
theorem transform_deterministic_replay_witness :
    ctEcho = ctEcho
    ∧ ctEcho.transform dfEmpty
        = .ok ({ columns := ["k"], rows := [[Value.vInt 1]] }, ctEcho) :=
  transform_deterministic_replay ctEcho dfEmpty
    { columns := ["k"], rows := [[Value.vInt 1]] } ctEcho rfl

/-- Counterexample to claim C7: the extra-arguments attribute is public and
read at call time, so assigning it after construction changes what a later
`transform` call passes to the transformer — re-invocation does not use only
the construction-time values.  Construction is shown explicitly, then the
mutated instance observably replays the mutated argument. -/
theorem kwargs_mutation_affects_reinvocation_counterexample :
    (custom_transform_init (some (PyObject.callable kwEcho))
        [("k", Value.vInt 1)]).map (fun c => c.bind parentFeature)
      = .ok ctEcho
    ∧ ctEcho.transform dfEmpty
        = .ok ({ columns := ["k"], rows := [[Value.vInt 1]] }, ctEcho)
    ∧ (set_transformer__kwargs ctEcho [("k", Value.vInt 2)]).transform dfEmpty
        = .ok ({ columns := ["k"], rows := [[Value.vInt 2]] },
               set_transformer__kwargs ctEcho [("k", Value.vInt 2)])
    ∧ ({ columns := ["k"], rows := [[Value.vInt 1]] } : DataFrame)
        ≠ { columns := ["k"], rows := [[Value.vInt 2]] } :=
  ⟨rfl, rfl, rfl, by decide⟩

/-- Claim C7 as amended: construction fixes the extra arguments in the
instance, and an already-completed `transform` result is a value that later
mutation cannot change; but `transform` reads the mapping current at call
time, so a call after reassigning `transformer__kwargs` replays the new
mapping, not the construction-time one. -/
theorem kwargs_fixed_at_construction_read_at_call_time
    (obj : PyObject) (f : TransformerFn)
    (kw kw1 : List (String × Value)) (ct : CustomTransform)
    (p : FeatureDescriptor) (d : DataFrame)
    (hinit : custom_transform_init (some obj) kw = .ok ct)
    (hf : obj = PyObject.callable f) :
    ct.transformer__kwargs = kw
    ∧ (set_transformer__kwargs (ct.bind p) kw1).transform d
        = (f d p kw1).map
            (fun out => (out, set_transformer__kwargs (ct.bind p) kw1)) := by
  have hred : custom_transform_init (some obj) kw
      = .ok ⟨Option.none, some obj, kw⟩ := rfl
  rw [hred] at hinit
  injection hinit with hinit
  subst hinit
  subst hf
  exact ⟨rfl, transform_bound_callable _ p f d rfl rfl⟩

/-- Witness for the amended C7 at a concrete component. -/
theorem kwargs_fixed_at_construction_read_at_call_time_witness :
    ({ _parent := Option.none,
       _transformer := some (PyObject.callable kwEcho),
       transformer__kwargs := [("k", Value.vInt 1)] } :
         CustomTransform).transformer__kwargs = [("k", Value.vInt 1)]
    ∧ (set_transformer__kwargs
        (CustomTransform.bind
          { _parent := Option.none,
            _transformer := some (PyObject.callable kwEcho),
            transformer__kwargs := [("k", Value.vInt 1)] } parentFeature)
        [("k", Value.vInt 2)]).transform dfEmpty
      = (kwEcho dfEmpty parentFeature [("k", Value.vInt 2)]).map
          (fun out => (out, set_transformer__kwargs
            (CustomTransform.bind
              { _parent := Option.none,
                _transformer := some (PyObject.callable kwEcho),
                transformer__kwargs := [("k", Value.vInt 1)] } parentFeature)
            [("k", Value.vInt 2)])) :=
  kwargs_fixed_at_construction_read_at_call_time
    (PyObject.callable kwEcho) kwEcho
    [("k", Value.vInt 1)] [("k", Value.vInt 2)] _ parentFeature dfEmpty rfl rfl

/-- Counterexample to claim C8: `transform` returns the transformer result
unchanged, so a transformer that drops everything yields an output missing
the input column `id` (and the parent-named column) — the adapter enforces
no containment of input columns in the output. -/
theorem transform_output_columns_not_guaranteed_counterexample :
    ctDrop.transform dfIdOnly = .ok ({ columns := [], rows := [] }, ctDrop)
    ∧ ¬ ("id" ∈ ({ columns := [], rows := [] } : DataFrame).columns) :=
  ⟨rfl, by decide⟩

/-- Claim C8 as amended: the adapter itself guarantees nothing about the
output columns (it returns the transformer result unchanged); the promised
containment holds exactly when the transformer provides it — in particular,
for every bound component whose transformer produces its result by adding or
overwriting the parent-named column on the input dataset, the output contains
every input column plus the parent's name. -/
theorem transform_with_column_transformer_output_columns
    (ct : CustomTransform) (p : FeatureDescriptor) (g : List Value → Value)
    (d : DataFrame)
    (hp : ct._parent = some p)
    (ht : ct._transformer = some (PyObject.callable
      (fun dd pp _ => .ok (dd.withColumn pp.name g)))) :
    ∃ out, ct.transform d = .ok (out, ct)
      ∧ (∀ c ∈ d.columns, c ∈ out.columns)
      ∧ p.name ∈ out.columns := by
  refine ⟨d.withColumn p.name g, ?_, ?_, ?_⟩
  · rw [transform_bound_callable ct p _ d hp ht]
    rfl
  · exact fun c hc => withColumn_columns_superset d p.name g c hc
  · exact withColumn_name_mem d p.name g

/-- Witness for the amended C8 at a concrete component and dataset. -/
theorem transform_with_column_transformer_output_columns_witness :
    ∃ out, ctWith.transform dfIdOnly = .ok (out, ctWith)
      ∧ (∀ c ∈ dfIdOnly.columns, c ∈ out.columns)
      ∧ parentFeature.name ∈ out.columns :=
  transform_with_column_transformer_output_columns
    ctWith parentFeature gConst dfIdOnly rfl rfl

/-- Claim C9: the transformer field is non-null on every successfully
constructed instance; the validating setter rejects an absent value
immediately at assignment time (never deferring the check), and every
successful assignment stores a non-null value, preserving the invariant. -/
theorem transformer_nonnull_invariant
    (tr : Option PyObject) (kw : List (String × Value)) (ct : CustomTransform)
    (h : custom_transform_init tr kw = .ok ct) :
    ct._transformer.isSome
    ∧ transformer_setter ct Option.none
        = .error (.valueError "A method must be provided to CustomTransform")
    ∧ (∀ m ct1, transformer_setter ct (some m) = .ok ct1 →
        ct1._transformer = some m) := by
  refine ⟨?_, rfl, ?_⟩
  · rcases tr with _ | obj
    · exact absurd h (by simp [custom_transform_init, transformer_setter])
    · have hred : custom_transform_init (some obj) kw
          = .ok ⟨Option.none, some obj, kw⟩ := rfl
      rw [hred] at h
      injection h with h
      rw [← h]
      rfl
  · intro m ct1 hset
    injection hset with hset
    rw [← hset]

/-- Witness for C9 at a concrete construction. -/
theorem transformer_nonnull_invariant_witness :
    (({ _parent := Option.none,
        _transformer := some (PyObject.callable kwEcho),
        transformer__kwargs := [] } : CustomTransform))._transformer.isSome
    ∧ transformer_setter
        { _parent := Option.none,
          _transformer := some (PyObject.callable kwEcho),
          transformer__kwargs := [] } Option.none
        = .error (.valueError "A method must be provided to CustomTransform")
    ∧ (∀ m ct1, transformer_setter
        { _parent := Option.none,
          _transformer := some (PyObject.callable kwEcho),
          transformer__kwargs := [] } (some m) = .ok ct1 →
        ct1._transformer = some m) :=
  transformer_nonnull_invariant
    (some (PyObject.callable kwEcho)) [] _ rfl

/-- Claim C10: the construction-time check rejects only a literal None — any
non-null object, callable or not, is accepted and stored verbatim; a stored
non-callable surfaces only when a later bound `transform` call attempts to
invoke it, raising the call-time type error. -/
theorem init_accepts_any_nonnull_type_error_at_invocation
    (obj : PyObject) (kw : List (String × Value)) (r : String)
    (p : FeatureDescriptor) (d : DataFrame) :
    custom_transform_init (some obj) kw
      = .ok { _parent := Option.none, _transformer := some obj,
              transformer__kwargs := kw }
    ∧ ({ _parent := some p,
         _transformer := some (PyObject.notCallable r),
         transformer__kwargs := kw } : CustomTransform).transform d
        = .error (.typeError ("object is not callable: " ++ r)) :=
  ⟨rfl, rfl⟩
